import Mathlib

/-!
Verification development for the SEO job orchestration engine
(BullMQ worker `seo.worker.js`, queue adapter `queue.server.js`,
usage accounting `billing.usage.server.js`).

JavaScript values are embedded as follows: strings are `String`,
nullable values are `Option`, finite JS numbers are `ℚ` (a JSON field
whose `Number(...)` conversion is `NaN`/`±Infinity` is `none`),
database rows are Lean structures, and the effect of a code path on a
row is an explicit function from the old row to the new row.
-/

/-- Characters removed by JavaScript `String.prototype.trim` (the
whitespace characters that occur in the data handled here). -/
def isJsSpace (c : Char) : Bool :=
  c = ' ' || c = '\t' || c = '\n' || c = '\r' || c = '\x0b' || c = '\x0c'

/-- Model of `String.prototype.trim` on the character list. -/
def jsTrimChars (l : List Char) : List Char :=
  ((l.dropWhile isJsSpace).reverse.dropWhile isJsSpace).reverse

/-- Model of `String.prototype.trim`. -/
def jsTrim (s : String) : String :=
  ⟨jsTrimChars s.data⟩

/-- JS `x || d` on a nullable string: `null`/`""` are falsy. -/
def jsOr (o : Option String) (d : String) : String :=
  match o with
  | some s => if s = "" then d else s
  | none => d

/-- JS `x || null` on a nullable string: an empty string becomes `null`. -/
def jsOrNull (o : Option String) : Option String :=
  match o with
  | some s => if s = "" then none else some s
  | none => none

/-- Does `need` occur at the start of `hay`? (`String.prototype.startsWith`). -/
def startsWithChars : List Char → List Char → Bool
  | [], _ => true
  | _ :: _, [] => false
  | a :: as, b :: bs => a = b && startsWithChars as bs

/-- Does `need` occur somewhere in `hay`? (`String.prototype.includes`). -/
def hasSub (need : List Char) : List Char → Bool
  | [] => need.isEmpty
  | c :: t => startsWithChars need (c :: t) || hasSub need t

/- ===================================================================
   computeShopifyThrottleWaitMs (seo.worker.js)
   =================================================================== -/

/-- The `extensions.cost.throttleStatus` of a Shopify GraphQL response.
A field is `none` when `Number(...)` of the JSON value is not finite. -/
structure ThrottleStatus where
  currentlyAvailable : Option ℚ
  restoreRate : Option ℚ
deriving DecidableEq, Repr

/-- The `extensions.cost` of a Shopify GraphQL response. -/
structure CostInfo where
  throttleStatus : Option ThrottleStatus
deriving DecidableEq, Repr

/-- The part of a Shopify GraphQL response JSON read by the throttle
pacing code: `json?.extensions?.cost` (`none` when `extensions` or
`cost` is absent). -/
structure GraphqlResponse where
  cost : Option CostInfo
deriving DecidableEq, Repr

/-- Source `computeShopifyThrottleWaitMs(json, opts)`:
cost-based pacing wait in milliseconds. Mirrors the source: any missing
or non-finite field and any `restoreRate ≤ 0` yield `0`; otherwise the
deficit `minAvailable − currentlyAvailable` is divided by `restoreRate`
(seconds), converted to milliseconds, rounded up, and clamped by
`maxWaitMs`. -/
def computeShopifyThrottleWaitMs (json : GraphqlResponse)
    (minAvailable : ℚ) (maxWaitMs : ℤ) : ℤ :=
  match json.cost with
  | none => 0
  | some cost =>
    match cost.throttleStatus with
    | none => 0
    | some throttle =>
      match throttle.currentlyAvailable, throttle.restoreRate with
      | some currentlyAvailable, some restoreRate =>
        if restoreRate ≤ 0 then 0
        else if minAvailable ≤ currentlyAvailable then 0
        else
          let deficit : ℚ := minAvailable - currentlyAvailable
          let ms : ℤ := ⌈deficit / restoreRate * 1000⌉
          if ms ≤ 0 then 0 else min maxWaitMs ms
      | _, _ => 0

/-- The wait used by `shopifyGraphqlJsonWithRetry`, which calls
`computeShopifyThrottleWaitMs(json)` with the default options
`minAvailable = 100`, `maxWaitMs = 5000` and sleeps exactly that long
when it is positive. -/
def throttleWaitDefault (json : GraphqlResponse) : ℤ :=
  computeShopifyThrottleWaitMs json 100 5000

/-- Modelled from the spec: the claimed formula
`ceil((minAvailable − currentlyAvailable) / restoreRate)` **seconds**,
clamped to `[0, 5000]` milliseconds. -/
def specSecondsThrottleWaitMs (currentlyAvailable restoreRate : ℚ) : ℤ :=
  if 100 ≤ currentlyAvailable then 0
  else max 0 (min 5000 (1000 * ⌈(100 - currentlyAvailable) / restoreRate⌉))

/-- A response whose throttle status reports `currentlyAvailable = 50`,
`restoreRate = 40`. -/
def responseAt (currentlyAvailable restoreRate : ℚ) : GraphqlResponse :=
  ⟨some ⟨some ⟨some currentlyAvailable, some restoreRate⟩⟩⟩

/- ===================================================================
   safeBullId / enqueueSeoJob / removeSeoQueueJob (queue.server.js)
   =================================================================== -/

/-- Source `safeBullId(input)`: trim, then replace every `':'` with `'-'`
(BullMQ custom job ids may not contain colons). -/
def safeBullId (input : String) : String :=
  ⟨(jsTrimChars input.data).map (fun c => if c = ':' then '-' else c)⟩

/-- The deterministic BullMQ custom id built by `enqueueSeoJob`:
`safeBullId(kind) ++ "-" ++ safeBullId(trim jobId)`. -/
def enqueueCustomId (jobId kind : String) : String :=
  safeBullId kind ++ "-" ++ safeBullId (jsTrim jobId)

/-- The custom id recomputed by `removeSeoQueueJob` for best-effort
removal (same construction as `enqueueSeoJob`). -/
def removeCustomId (jobId kind : String) : String :=
  safeBullId kind ++ "-" ++ safeBullId (jsTrim jobId)

/-- Modelled from the spec: `sanitize` that *strips* (deletes) colons. -/
def stripColons (s : String) : String :=
  ⟨s.data.filter (fun c => c ≠ ':')⟩

theorem safeBullId_no_colon (s : String) : ':' ∉ (safeBullId s).data := by
  intro h
  simp only [safeBullId] at h
  rcases List.mem_map.mp h with ⟨c, _, hc⟩
  by_cases hcc : c = ':' <;> simp [hcc] at hc

theorem enqueueCustomId_no_colon (jobId kind : String) :
    ':' ∉ (enqueueCustomId jobId kind).data := by
  intro h
  have hdata : (enqueueCustomId jobId kind).data
      = (safeBullId kind).data ++ ('-' :: (safeBullId (jsTrim jobId)).data) := by
    simp [enqueueCustomId, String.data_append]
  rw [hdata] at h
  rcases List.mem_append.mp h with h1 | h2
  · exact safeBullId_no_colon kind h1
  · rcases List.mem_cons.mp h2 with h3 | h4
    · exact absurd h3 (by decide)
    · exact safeBullId_no_colon (jsTrim jobId) h4

theorem computeShopifyThrottleWaitMs_bounds (json : GraphqlResponse)
    (minAvailable : ℚ) (maxWaitMs : ℤ) (hmax : 0 ≤ maxWaitMs) :
    0 ≤ computeShopifyThrottleWaitMs json minAvailable maxWaitMs ∧
      computeShopifyThrottleWaitMs json minAvailable maxWaitMs ≤ maxWaitMs := by
  unfold computeShopifyThrottleWaitMs
  rcases json with ⟨cost⟩
  rcases cost with _ | ⟨throttle⟩
  · simp [hmax]
  rcases throttle with _ | ⟨t⟩
  · simp [hmax]
  rcases t with ⟨avail, rate⟩
  rcases avail with _ | a
  · simp [hmax]
  rcases rate with _ | r
  · simp [hmax]
  simp only
  split_ifs with h1 h2 h3
  · exact ⟨le_refl 0, hmax⟩
  · exact ⟨le_refl 0, hmax⟩
  · exact ⟨le_refl 0, hmax⟩
  · refine ⟨le_min hmax ?_, min_le_left _ _⟩
    omega

theorem throttleWait_formula_of_low (a r : ℚ) (hr : 0 < r) (ha : a < 100) :
    throttleWaitDefault (responseAt a r) = min 5000 ⌈(100 - a) / r * 1000⌉ := by
  have hceil : (1 : ℤ) ≤ ⌈(100 - a) / r * 1000⌉ := by
    have hpos : (0 : ℚ) < (100 - a) / r * 1000 := by
      have h1 : (0 : ℚ) < 100 - a := by linarith
      positivity
    exact Int.ceil_pos.mpr hpos
  unfold throttleWaitDefault computeShopifyThrottleWaitMs responseAt
  simp only
  split_ifs with h1 h2 h3
  · exact absurd h1 (not_le.mpr hr)
  · exact absurd h2 (not_le.mpr ha)
  · omega
  · rfl

/-- C3 counterexample: at `currentlyAvailable = 50`, `restoreRate = 40`
the code waits `ceil(50/40·1000) = 1250` ms, while the claimed formula
`ceil((100−50)/40)` seconds gives `2000` ms, so the claimed equality
fails on this response. -/
theorem c3_throttle_wait_counterexample :
    throttleWaitDefault (responseAt 50 40) = 1250 ∧
      specSecondsThrottleWaitMs 50 40 = 2000 ∧
      throttleWaitDefault (responseAt 50 40) ≠ specSecondsThrottleWaitMs 50 40 := by
  have h := throttleWait_formula_of_low 50 40 (by norm_num) (by norm_num)
  have h1 : throttleWaitDefault (responseAt 50 40) = 1250 := by
    rw [h]; norm_num
  have h2 : specSecondsThrottleWaitMs 50 40 = 2000 := by
    have hc : (⌈((100 : ℚ) - 50) / 40⌉ : ℤ) = 2 := by
      rw [Int.ceil_eq_iff] <;> norm_num
    unfold specSecondsThrottleWaitMs
    rw [if_neg (by norm_num : ¬(100 : ℚ) ≤ 50), hc]
    decide
  exact ⟨h1, h2, by rw [h1, h2]; decide⟩

/-- C3 (amended): the cost-pacing wait is `0` whenever
`currentlyAvailable ≥ minAvailable (= 100)`; otherwise (for a positive
`restoreRate`) it equals `ceil(1000·(minAvailable − currentlyAvailable)
/ restoreRate)` **milliseconds** clamped above by `maxWait = 5000` ms
(rather than `ceil` of the quotient in whole seconds); in particular,
for `currentlyAvailable = 50` and `restoreRate = 50` the engine sleeps
exactly `1000` ms, which is at least `1000` ms and at most `5000` ms. -/
theorem c3_throttle_wait_amended (a r : ℚ) :
    (100 ≤ a → throttleWaitDefault (responseAt a r) = 0) ∧
    (0 < r → a < 100 →
      throttleWaitDefault (responseAt a r) = min 5000 ⌈(100 - a) / r * 1000⌉) ∧
    throttleWaitDefault (responseAt 50 50) = 1000 ∧
    1000 ≤ throttleWaitDefault (responseAt 50 50) ∧
    throttleWaitDefault (responseAt 50 50) ≤ 5000 := by
  have h50 : throttleWaitDefault (responseAt 50 50) = 1000 := by
    rw [throttleWait_formula_of_low 50 50 (by norm_num) (by norm_num)]
    norm_num
  refine ⟨?_, fun hr ha => throttleWait_formula_of_low a r hr ha, h50, ?_, ?_⟩
  · intro h100
    unfold throttleWaitDefault computeShopifyThrottleWaitMs responseAt
    simp only
    split_ifs with h1 h2
    · rfl
    · rfl
    all_goals exact absurd h100 h2
  · omega
  · omega

/-- C3 witness: instantiating the amended theorem at
`currentlyAvailable = 50`, `restoreRate = 50` (and at `150`) and
evaluating. -/
theorem c3_throttle_wait_amended_witness :
    throttleWaitDefault (responseAt 150 50) = 0 ∧
      throttleWaitDefault (responseAt 50 50) = 1000 := by
  refine ⟨(c3_throttle_wait_amended 150 50).1 (by norm_num), ?_⟩
  exact (c3_throttle_wait_amended 50 50).2.2.1

/-- C10 (confirmed): the throttle-wait computation is total and never
yields an invalid sleep: it returns `0` when
`extensions.cost.throttleStatus` is absent, when `currentlyAvailable`
or `restoreRate` is not a finite number, or when `restoreRate ≤ 0`;
and for every input its result lies in `[0, 5000]` (the default
`maxWaitMs`), never negative, so the division by `restoreRate` is
always guarded. -/
theorem c10_throttle_wait_total (json : GraphqlResponse) :
    (json.cost = none → throttleWaitDefault json = 0) ∧
    (∀ c, json.cost = some c → c.throttleStatus = none →
      throttleWaitDefault json = 0) ∧
    (∀ c t, json.cost = some c → c.throttleStatus = some t →
      (t.currentlyAvailable = none ∨ t.restoreRate = none) →
      throttleWaitDefault json = 0) ∧
    (∀ c t a r, json.cost = some c → c.throttleStatus = some t →
      t.currentlyAvailable = some a → t.restoreRate = some r → r ≤ 0 →
      throttleWaitDefault json = 0) ∧
    (0 ≤ throttleWaitDefault json ∧ throttleWaitDefault json ≤ 5000) := by
  refine ⟨?_, ?_, ?_, ?_, computeShopifyThrottleWaitMs_bounds json 100 5000 (by decide)⟩
  · intro h
    simp [throttleWaitDefault, computeShopifyThrottleWaitMs, h]
  · intro c hc ht
    simp [throttleWaitDefault, computeShopifyThrottleWaitMs, hc, ht]
  · intro c t hc ht hor
    rcases t with ⟨ta, tr⟩
    rcases hor with h | h
    · simp only at h
      simp [throttleWaitDefault, computeShopifyThrottleWaitMs, hc, ht, h]
    · simp only at h
      rcases ta with _ | v <;>
        simp [throttleWaitDefault, computeShopifyThrottleWaitMs, hc, ht, h]
  · intro c t a r hc ht ha hr hneg
    rcases t with ⟨ta, tr⟩
    simp only at ha hr
    simp [throttleWaitDefault, computeShopifyThrottleWaitMs, hc, ht, ha, hr, hneg]

/-- C10 witness: the theorem applied at a response lacking
`throttleStatus` and at a concrete throttled response. -/
theorem c10_throttle_wait_total_witness :
    throttleWaitDefault ⟨none⟩ = 0 ∧
      0 ≤ throttleWaitDefault (responseAt 50 40) ∧
      throttleWaitDefault (responseAt 50 40) ≤ 5000 := by
  refine ⟨(c10_throttle_wait_total ⟨none⟩).1 rfl, ?_, ?_⟩
  · exact (c10_throttle_wait_total (responseAt 50 40)).2.2.2.2.1
  · exact (c10_throttle_wait_total (responseAt 50 40)).2.2.2.2.2

/-- C8 counterexample: for `jobId = "a:b"`, the code's sanitizer
*replaces* the colon with a hyphen (`"generate-a-b"`), while a
sanitizer that *strips* colons would give `"generate-ab"`; the claimed
equation fails on this input. -/
theorem c8_external_id_counterexample :
    enqueueCustomId "a:b" "generate" = "generate-a-b" ∧
      stripColons "generate" ++ "-" ++ stripColons "a:b" = "generate-ab" ∧
      enqueueCustomId "a:b" "generate" ≠
        stripColons "generate" ++ "-" ++ stripColons "a:b" := by
  decide

/-- C8 (amended): the broker external id equals
`sanitize(kind) ++ "-" ++ sanitize(jobId)` where `sanitize` trims the
input and replaces each `':'` with `'-'` (rather than deleting it);
the resulting id contains no `':'` character, and `removeSeoQueueJob`
recomputes exactly the same deterministic id. -/
theorem c8_external_id_amended (jobId kind : String) :
    enqueueCustomId jobId kind = removeCustomId jobId kind ∧
      ':' ∉ (enqueueCustomId jobId kind).data ∧
      enqueueCustomId jobId kind
        = safeBullId kind ++ "-" ++ safeBullId (jsTrim jobId) :=
  ⟨rfl, enqueueCustomId_no_colon jobId kind, rfl⟩

/-- C8 witness: the amended theorem applied at `jobId = "job:1"`,
`kind = "publish"`. -/
theorem c8_external_id_amended_witness :
    enqueueCustomId "job:1" "publish" = removeCustomId "job:1" "publish" ∧
      ':' ∉ (enqueueCustomId "job:1" "publish").data ∧
      enqueueCustomId "job:1" "publish" = "publish-job-1" :=
  ⟨(c8_external_id_amended "job:1" "publish").1,
    (c8_external_id_amended "job:1" "publish").2.1, by decide⟩

/- ===================================================================
   reserveFreeUsageMonthly (billing.usage.server.js)
   =================================================================== -/

/-- Result object of `reserveFreeUsageMonthly` (the `month` field is
omitted; it is the fixed `YYYY-MM` key of the current month). -/
structure ReserveResult where
  ok : Bool
  code : String
  used : ℕ
  limit : ℕ
  remaining : ℕ
deriving DecidableEq, Repr

/-- Source `reserveFreeUsageMonthly(shop, count, limit)` as a transition on
the stored `(shop, month)` counter (`none` = row absent). `count` is
the raw JS number argument; the code replaces a negative count by `0`
(`Math.max(0, Number(count || 0))`) and returns immediately when it is
`0`. Otherwise, inside one serializable transaction, it upserts the
row, reads `used`, rejects with `FREE_LIMIT_EXCEEDED` when
`used + count` exceeds the limit (leaving `used` unchanged), and
commits `used + count` otherwise. Returns the result together with the
stored counter after the call. -/
def reserveFreeUsageMonthly (stored : Option ℕ) (count : ℤ) (lim : ℕ) :
    ReserveResult × Option ℕ :=
  let safeCount : ℕ := (max 0 count).toNat
  if safeCount = 0 then
    (⟨true, "OK", 0, lim, lim⟩, stored)
  else
    let used : ℕ := stored.getD 0
    let newUsed : ℕ := used + safeCount
    if lim < newUsed then
      (⟨false, "FREE_LIMIT_EXCEEDED", used, lim, lim - used⟩, some used)
    else
      (⟨true, "OK", newUsed, lim, lim - newUsed⟩, some newUsed)

/-- C2 counterexample: with `used = 8`, a request of `n = 5` against
limit `L = 10` is rejected and the counter stays at `8`, but the
rejection code is `"FREE_LIMIT_EXCEEDED"`, not the claimed
`"LimitExceeded"`. -/
theorem c2_reserve_counterexample :
    reserveFreeUsageMonthly (some 8) 5 10
        = (⟨false, "FREE_LIMIT_EXCEEDED", 8, 10, 2⟩, some 8) ∧
      "FREE_LIMIT_EXCEEDED" ≠ "LimitExceeded" := by
  decide

/-- C2 (amended): for every request of `n ≥ 1` items against monthly
limit `L` with current counter `used`: if `used + n > L` the
reservation returns `ok = false` with code `"FREE_LIMIT_EXCEEDED"`
(not `"LimitExceeded"`) and the stored counter value is unchanged;
otherwise the counter is updated to `used + n` and the call returns
`ok = true` with the updated `used` and
`remaining = L − (used + n)`.  (A request of `n ≤ 0` items returns
`ok = true` immediately, reporting `used = 0`, without touching the
counter.) -/
theorem c2_reserve_amended (stored : Option ℕ) (n : ℕ) (lim : ℕ)
    (hn : 1 ≤ n) :
    ((lim < stored.getD 0 + n →
        reserveFreeUsageMonthly stored (n : ℤ) lim
          = (⟨false, "FREE_LIMIT_EXCEEDED", stored.getD 0, lim,
              lim - stored.getD 0⟩, some (stored.getD 0))) ∧
      (stored.getD 0 + n ≤ lim →
        reserveFreeUsageMonthly stored (n : ℤ) lim
          = (⟨true, "OK", stored.getD 0 + n, lim,
              lim - (stored.getD 0 + n)⟩, some (stored.getD 0 + n)))) := by
  have hsafe : ((max 0 (n : ℤ)).toNat) = n := by omega
  constructor
  · intro hover
    unfold reserveFreeUsageMonthly
    rw [hsafe]
    rw [if_neg (by omega), if_pos hover]
  · intro hok
    unfold reserveFreeUsageMonthly
    rw [hsafe]
    rw [if_neg (by omega), if_neg (by omega)]

/-- C2 witness: the amended theorem applied at `used = 8`, `n = 5`,
`L = 10` (rejection) and at `used = 8`, `n = 2`, `L = 10` (success). -/
theorem c2_reserve_amended_witness :
    reserveFreeUsageMonthly (some 8) (5 : ℤ) 10
        = (⟨false, "FREE_LIMIT_EXCEEDED", 8, 10, 2⟩, some 8) ∧
      reserveFreeUsageMonthly (some 8) (2 : ℤ) 10
        = (⟨true, "OK", 10, 10, 0⟩, some 10) :=
  ⟨(c2_reserve_amended (some 8) 5 10 (by decide)).1 (by decide),
    (c2_reserve_amended (some 8) 2 10 (by decide)).2 (by decide)⟩

/- ===================================================================
   Job / item rows (prisma models SeoJob, SeoJobItem)
   =================================================================== -/

/-- A `SeoJob` row (fields used by the worker). Timestamps are
integers (epoch milliseconds); nullable columns are `Option`. -/
structure SeoJob where
  id : String
  shop : String
  jobType : String
  phase : Option String
  status : String
  total : ℕ
  okCount : ℕ
  failedCount : ℕ
  publishOkCount : ℕ
  publishFailedCount : ℕ
  totalAttempts : ℕ
  totalRetryWaitMs : ℕ
  startedAt : Option ℤ
  finishedAt : Option ℤ
  publishStartedAt : Option ℤ
  publishFinishedAt : Option ℤ
  lastHeartbeatAt : Option ℤ
  lockOwner : Option String
  lockExpiresAt : Option ℤ
  lastError : Option String
  language : Option String
  metaTitle : Bool
  metaDescription : Bool
  usageReserved : Bool
  usageCount : ℕ
deriving DecidableEq, Repr

/-- A `SeoJobItem` row (fields used by the worker). -/
structure SeoJobItem where
  id : ℕ
  jobId : String
  targetType : String
  targetId : Option String
  productId : Option String
  mediaId : Option String
  productTitle : Option String
  status : String
  startedAt : Option ℤ
  finishedAt : Option ℤ
  error : Option String
  genAttempts : ℕ
  genRetryWaitMs : ℕ
  seoTitle : Option String
  seoDescription : Option String
  publishStatus : String
  publishedAt : Option ℤ
  publishError : Option String
  publishAttempts : ℕ
  publishRetryWaitMs : ℕ
deriving DecidableEq, Repr

/- ===================================================================
   processGenerate: item eligibility and counter updates (seo.worker.js)
   =================================================================== -/

/-- Eligibility filter of the generate phase:
`status: { in: ["queued", "failed"] }` (together with the `jobId`
match; the `targetType` filter is left to the caller's item list). -/
def generateEligible (i : SeoJobItem) : Bool :=
  i.status = "queued" || i.status = "failed"

/-- The effect of one generate loop iteration on the job counters:
a successful item increments `okCount` by one, a failed item
increments `failedCount` by one — regardless of whether the item had
already been counted in a previous generate run. -/
def generateCounterStep (j : SeoJob) (succeeded : Bool) : SeoJob :=
  if succeeded then { j with okCount := j.okCount + 1 }
  else { j with failedCount := j.failedCount + 1 }

/-- Counter effect of one (uncancelled) `processGenerate` run: the
loop walks the items of the job whose generate status is `queued` or
`failed` and applies `generateCounterStep` per item, with the outcome
of the external generation given by `succeeds`. -/
def processGenerateCounters (j : SeoJob) (items : List SeoJobItem)
    (succeeds : SeoJobItem → Bool) : SeoJob :=
  (items.filter (fun i => i.jobId = j.id && generateEligible i)).foldl
    (fun acc i => generateCounterStep acc (succeeds i)) j

/-- A one-item job whose single item already failed once:
`total = 1`, `okCount = 0`, `failedCount = 1`. -/
def stuckCounterJob : SeoJob :=
  { id := "J1", shop := "s1.myshopify.com", jobType := "PRODUCT_SEO",
    phase := some "generating", status := "success", total := 1,
    okCount := 0, failedCount := 1, publishOkCount := 0,
    publishFailedCount := 0, totalAttempts := 1, totalRetryWaitMs := 0,
    startedAt := some 0, finishedAt := some 1, publishStartedAt := none,
    publishFinishedAt := none, lastHeartbeatAt := some 1,
    lockOwner := none, lockExpiresAt := none,
    lastError := some "OpenAI request failed.", language := some "tr",
    metaTitle := true, metaDescription := true, usageReserved := true,
    usageCount := 1 }

/-- The failed item of `stuckCounterJob`. -/
def failedItemJ1 : SeoJobItem :=
  { id := 1, jobId := "J1", targetType := "PRODUCT",
    targetId := some "gid://shopify/Product/1",
    productId := some "gid://shopify/Product/1", mediaId := none,
    productTitle := some "P1", status := "failed", startedAt := some 0,
    finishedAt := some 1, error := some "OpenAI request failed.",
    genAttempts := 3, genRetryWaitMs := 4000, seoTitle := none,
    seoDescription := none, publishStatus := "queued",
    publishedAt := none, publishError := none, publishAttempts := 0,
    publishRetryWaitMs := 0 }

/-- C1 (code_bug): items with generate status `failed` are eligible
for a new generate run, and `processGenerate` increments `failedCount`
(or `okCount`) again for them without ever decrementing; re-running
the generate phase over the already-counted failed item of a job with
`total = 1`, `okCount = 0`, `failedCount = 1` pushes
`okCount + failedCount` to `2 > total`, violating the claimed
invariant `okCount + failedCount ≤ total`. -/
theorem c1_counter_overflow_on_rerun :
    generateEligible failedItemJ1 = true ∧
      (processGenerateCounters stuckCounterJob [failedItemJ1]
          (fun _ => false)).failedCount = 2 ∧
      (processGenerateCounters stuckCounterJob [failedItemJ1]
            (fun _ => false)).okCount
          + (processGenerateCounters stuckCounterJob [failedItemJ1]
              (fun _ => false)).failedCount
        = 2 ∧
      stuckCounterJob.total = 1 ∧ ¬(2 ≤ stuckCounterJob.total) := by
  refine ⟨rfl, rfl, rfl, rfl, by decide⟩

/- ===================================================================
   recoverStuckJobs (seo.worker.js)
   =================================================================== -/

/-- Model of `String(job.phase || "generating")`. -/
def jobPhase (j : SeoJob) : String :=
  jsOr j.phase "generating"

/-- The recovery reason written by `recoverStuckJobs`:
`` `Recovered stuck job (no heartbeat for >= ${STUCK_JOB_MINUTES}m)` ``
with the default `STUCK_JOB_MINUTES = 10`. -/
def stuckJobMessage (minutes : ℕ) : String :=
  "Recovered stuck job (no heartbeat for >= " ++ toString minutes ++ "m)"

/-- The selection predicate of the stuck-job scan (`findMany` where
clause): `status = "running"`, a non-null expired lock, and either an
old heartbeat, an old phase start, or no start/heartbeat at all. -/
def isStuckJob (now cutoff : ℤ) (j : SeoJob) : Bool :=
  j.status = "running" &&
    (match j.lockExpiresAt with
      | some t => decide (t < now)
      | none => false) &&
    ((match j.lastHeartbeatAt with
        | some t => decide (t < cutoff)
        | none => false) ||
      (match j.startedAt with
        | some t => decide (t < cutoff)
        | none => false) ||
      (match j.publishStartedAt with
        | some t => decide (t < cutoff)
        | none => false) ||
      (j.startedAt.isNone && j.publishStartedAt.isNone &&
        j.lastHeartbeatAt.isNone))

/-- Per-item effect of `recoverStuckJobs`: in the publishing phase the
`updateMany` targets items with `publishStatus = "running"` and writes
only `publishStatus`/`publishError`; in any other phase it targets
items with `status = "running"` and writes only
`status`/`finishedAt`/`error`. -/
def recoverItem (phase : String) (now : ℤ) (msg : String)
    (i : SeoJobItem) : SeoJobItem :=
  if phase = "publishing" then
    if i.publishStatus = "running" then
      { i with publishStatus := "failed", publishError := some msg }
    else i
  else
    if i.status = "running" then
      { i with status := "failed", finishedAt := some now,
               error := some msg }
    else i

/-- Job-row effect of `recoverStuckJobs`: `status = "failed"`,
`finishedAt = now`, `publishFinishedAt = now` when publishing (else
unchanged), `lastError = msg`, lease cleared. -/
def recoverJob (now : ℤ) (msg : String) (j : SeoJob) : SeoJob :=
  { j with status := "failed", finishedAt := some now,
           publishFinishedAt :=
             if jobPhase j = "publishing" then some now
             else j.publishFinishedAt,
           lastError := some msg, lockOwner := none,
           lockExpiresAt := none }

/-- One iteration of the `recoverStuckJobs` loop applied to a selected
job and the item table. -/
def recoverStuckJob (now : ℤ) (minutes : ℕ) (j : SeoJob)
    (items : List SeoJobItem) : SeoJob × List SeoJobItem :=
  let msg := stuckJobMessage minutes
  (recoverJob now msg j,
    items.map (fun i =>
      if i.jobId = j.id then recoverItem (jobPhase j) now msg i else i))

/-- A concrete stuck job: running, lock expired, stale heartbeat. -/
def stuckJobG : SeoJob :=
  { stuckCounterJob with
    id := "J2", status := "running",
    phase := some "generating", lockOwner := some "worker-12",
    lockExpiresAt := some 100, lastHeartbeatAt := some 50,
    startedAt := some 10, finishedAt := none, lastError := none }

/-- A running generate-phase item of `stuckJobG`. -/
def runningItemJ2 : SeoJobItem :=
  { failedItemJ1 with
    id := 7, jobId := "J2", status := "running",
    startedAt := some 60, finishedAt := none, error := none,
    seoTitle := some "Draft title", seoDescription := some "Draft desc" }

/-- C5 counterexample: recovery writes the reason
`"Recovered stuck job (no heartbeat for >= 10m)"` onto the recovered
item and job, which differs from the claimed reason string
`"Recovered stuck job (no heartbeat ≥ 10m)"`. -/
theorem c5_recovery_reason_counterexample :
    isStuckJob 1000 800 stuckJobG = true ∧
      (recoverStuckJob 1000 10 stuckJobG [runningItemJ2]).2
        = [{ runningItemJ2 with
             status := "failed",
             finishedAt := some 1000,
             error := some "Recovered stuck job (no heartbeat for >= 10m)" }] ∧
      stuckJobMessage 10 ≠ "Recovered stuck job (no heartbeat ≥ 10m)" := by
  refine ⟨by decide, by decide, by decide⟩

/-- C5 (amended): for every job selected by the stuck-job scan,
recovery marks the current phase's `running` items as failed with
reason `"Recovered stuck job (no heartbeat for >= 10m)"` (not the
claimed `"… no heartbeat ≥ 10m"`), touching only that phase's item
fields; it sets the job status to failed with `finishedAt = now`
(plus `publishFinishedAt = now` when publishing), sets `lastError` to
the reason, and clears the lease. -/
theorem c5_recovery_amended (now cutoff : ℤ) (minutes : ℕ) (j : SeoJob)
    (items : List SeoJobItem) (hstuck : isStuckJob now cutoff j = true) :
    ((recoverStuckJob now minutes j items).1.status = "failed" ∧
      (recoverStuckJob now minutes j items).1.finishedAt = some now ∧
      (recoverStuckJob now minutes j items).1.lastError
        = some (stuckJobMessage minutes) ∧
      (recoverStuckJob now minutes j items).1.lockOwner = none ∧
      (recoverStuckJob now minutes j items).1.lockExpiresAt = none ∧
      (jobPhase j = "publishing" →
        (recoverStuckJob now minutes j items).1.publishFinishedAt = some now) ∧
      (jobPhase j ≠ "publishing" →
        (recoverStuckJob now minutes j items).1.publishFinishedAt
          = j.publishFinishedAt) ∧
      (recoverStuckJob now minutes j items).1.okCount = j.okCount ∧
      (recoverStuckJob now minutes j items).1.failedCount = j.failedCount ∧
      (recoverStuckJob now minutes j items).1.phase = j.phase) ∧
    ((recoverStuckJob now minutes j items).2
      = items.map (fun i =>
          if i.jobId = j.id then
            recoverItem (jobPhase j) now (stuckJobMessage minutes) i
          else i)) ∧
    (∀ i : SeoJobItem,
      (jobPhase j = "publishing" → i.publishStatus = "running" →
        recoverItem (jobPhase j) now (stuckJobMessage minutes) i
          = { i with
              publishStatus := "failed",
              publishError := some (stuckJobMessage minutes) }) ∧
      (jobPhase j = "publishing" → i.publishStatus ≠ "running" →
        recoverItem (jobPhase j) now (stuckJobMessage minutes) i = i) ∧
      (jobPhase j ≠ "publishing" → i.status = "running" →
        recoverItem (jobPhase j) now (stuckJobMessage minutes) i
          = { i with
              status := "failed", finishedAt := some now,
              error := some (stuckJobMessage minutes) }) ∧
      (jobPhase j ≠ "publishing" → i.status ≠ "running" →
        recoverItem (jobPhase j) now (stuckJobMessage minutes) i = i)) := by
  refine ⟨⟨rfl, rfl, rfl, rfl, rfl, ?_, ?_, rfl, rfl, rfl⟩, rfl, ?_⟩
  · intro hpub
    simp [recoverStuckJob, recoverJob, hpub]
  · intro hpub
    simp [recoverStuckJob, recoverJob, hpub]
  · intro i
    refine ⟨?_, ?_, ?_, ?_⟩
    · intro hpub hrun
      simp [recoverItem, hpub, hrun]
    · intro hpub hrun
      simp [recoverItem, hpub, hrun]
    · intro hpub hrun
      simp [recoverItem, hpub, hrun]
    · intro hpub hrun
      simp [recoverItem, hpub, hrun]

/-- C5 witness: the amended theorem applied to the concrete stuck job
`stuckJobG` and its running item. -/
theorem c5_recovery_amended_witness :
    (recoverStuckJob 1000 10 stuckJobG [runningItemJ2]).1.status = "failed" ∧
      (recoverStuckJob 1000 10 stuckJobG [runningItemJ2]).1.lockOwner = none ∧
      (recoverStuckJob 1000 10 stuckJobG [runningItemJ2]).1.lastError
        = some (stuckJobMessage 10) :=
  ⟨((c5_recovery_amended 1000 800 10 stuckJobG [runningItemJ2]
      (by decide)).1).1,
    ((c5_recovery_amended 1000 800 10 stuckJobG [runningItemJ2]
      (by decide)).1).2.2.2.1,
    ((c5_recovery_amended 1000 800 10 stuckJobG [runningItemJ2]
      (by decide)).1).2.2.1⟩

/- ===================================================================
   processGenerate: persisted draft fields for PRODUCT items
   =================================================================== -/

/-- The `seoTitle`/`seoDescription` values persisted by the PRODUCT
branch of `processGenerate` on a successful item:
`seoTitle = job.metaTitle ? out.seoTitle : item.seoTitle` and the
update writes `seoTitle: seoTitle || null` (likewise for the
description). -/
def generatePersistProductFields (metaTitle metaDescription : Bool)
    (itemSeoTitle itemSeoDescription : Option String)
    (outTitle outDesc : String) : Option String × Option String :=
  let seoTitle : Option String :=
    if metaTitle then some outTitle else itemSeoTitle
  let seoDescription : Option String :=
    if metaDescription then some outDesc else itemSeoDescription
  (jsOrNull seoTitle, jsOrNull seoDescription)

/-- C9 counterexample: with `metaTitle = false` and a stored
`seoTitle` equal to the empty string, a successful generate persists
`null`, not the prior empty-string value, so the stored value is not
left exactly equal to its value before the run. -/
theorem c9_persist_counterexample :
    (generatePersistProductFields false true (some "") none "X" "Y").1
        = none ∧
      (generatePersistProductFields false true (some "") none "X" "Y").1
        ≠ some "" := by
  decide

/-- C9 (amended): for a product-SEO job with `metaTitle = false`
(resp. `metaDescription = false`), a successful generate leaves the
item's stored `seoTitle` (resp. `seoDescription`) equal to its value
before the run whenever that value is `null` or non-empty — a stored
empty string is normalized to `null` by the `x || null` write — and
the persisted value never depends on the Generator output for a field
the job is not configured to produce. -/
theorem c9_persist_amended (metaTitle metaDescription : Bool)
    (itemSeoTitle itemSeoDescription : Option String)
    (outTitle outDesc : String) :
    ((metaTitle = false →
        (generatePersistProductFields metaTitle metaDescription
            itemSeoTitle itemSeoDescription outTitle outDesc).1
          = jsOrNull itemSeoTitle) ∧
      (metaTitle = false → itemSeoTitle ≠ some "" →
        (generatePersistProductFields metaTitle metaDescription
            itemSeoTitle itemSeoDescription outTitle outDesc).1
          = itemSeoTitle) ∧
      (metaDescription = false →
        (generatePersistProductFields metaTitle metaDescription
            itemSeoTitle itemSeoDescription outTitle outDesc).2
          = jsOrNull itemSeoDescription) ∧
      (metaDescription = false → itemSeoDescription ≠ some "" →
        (generatePersistProductFields metaTitle metaDescription
            itemSeoTitle itemSeoDescription outTitle outDesc).2
          = itemSeoDescription)) := by
  refine ⟨?_, ?_, ?_, ?_⟩
  · intro hmt
    simp [generatePersistProductFields, hmt]
  · intro hmt hne
    rcases itemSeoTitle with _ | s
    · simp [generatePersistProductFields, hmt, jsOrNull]
    · have hs : s ≠ "" := fun h => hne (by rw [h])
      simp [generatePersistProductFields, hmt, jsOrNull, hs]
  · intro hmd
    simp [generatePersistProductFields, hmd]
  · intro hmd hne
    rcases itemSeoDescription with _ | s
    · simp [generatePersistProductFields, hmd, jsOrNull]
    · have hs : s ≠ "" := fun h => hne (by rw [h])
      simp [generatePersistProductFields, hmd, jsOrNull, hs]

/-- C9 witness: the amended theorem applied with
`metaTitle = false`, a non-empty stored title, and a Generator output
that is ignored. -/
theorem c9_persist_amended_witness :
    (generatePersistProductFields false true (some "Old title") none
        "New title" "New desc").1 = some "Old title" :=
  (c9_persist_amended false true (some "Old title") none
      "New title" "New desc").2.1 rfl (by decide)

/- ===================================================================
   classifyOpenAiFailure (seo.worker.js)
   =================================================================== -/

/-- JS `toLowerCase` restricted to the characters appearing in the
matched patterns: ASCII `A`–`Z` plus the Turkish uppercase letters.
(`'İ'` really lowercases to `"i"` followed by a combining dot; the
combining dot is dropped here, which affects none of the matched
tokens.) -/
def toLowerJs (c : Char) : Char :=
  if 'A' ≤ c && c ≤ 'Z' then Char.ofNat (c.toNat + 32)
  else if c = 'Ç' then 'ç'
  else if c = 'Ğ' then 'ğ'
  else if c = 'İ' then 'i'
  else if c = 'Ö' then 'ö'
  else if c = 'Ş' then 'ş'
  else if c = 'Ü' then 'ü'
  else c

/-- Model of `s.toLowerCase()` as a character list. -/
def lowerChars (s : String) : List Char :=
  s.data.map toLowerJs

/-- Characters matched by `.` in a JS regex without the `s` flag. -/
def jsDotChar (c : Char) : Bool :=
  !(c = '\n' || c = '\r' || c = ' ' || c = ' ')

/-- Case-lowered match of `/max.*tokens/`: some occurrence of `max`
followed, within the same line, by `tokens`. -/
def maxTokensMatch : List Char → Bool
  | [] => false
  | c :: t =>
    (startsWithChars "max".data (c :: t) &&
      hasSub "tokens".data ((c :: t).drop 3 |>.takeWhile jsDotChar)) ||
    maxTokensMatch t

/-- Model of the test `/context length|max.*tokens|too long/i.test(message)`. -/
def inputTooLongTest (message : String) : Bool :=
  hasSub "context length".data (lowerChars message) ||
    maxTokensMatch (lowerChars message) ||
    hasSub "too long".data (lowerChars message)

/-- Model of `/ECONNRESET|ENOTFOUND|EAI_AGAIN|ETIMEDOUT|network/i.test(message)`. -/
def networkErrorTest (message : String) : Bool :=
  hasSub "econnreset".data (lowerChars message) ||
    hasSub "enotfound".data (lowerChars message) ||
    hasSub "eai_again".data (lowerChars message) ||
    hasSub "etimedout".data (lowerChars message) ||
    hasSub "network".data (lowerChars message)

/-- Model of `name === "AbortError" || /aborted/i.test(message)`. -/
def abortTest (name : Option String) (message : String) : Bool :=
  name = some "AbortError" || hasSub "aborted".data (lowerChars message)

/-- The classifier's output object. -/
structure OpenAiClassification where
  isTransient : Bool
  userMessage : String
deriving DecidableEq, Repr

/-- Membership in `transientStatus = {408, 409, 429, 500, 502, 503,
504}`. -/
def transientStatusSet (n : ℕ) : Bool :=
  n = 408 || n = 409 || n = 429 || n = 500 || n = 502 || n = 503 || n = 504

/-- JS truthiness of the optional numeric `status` (`undefined` and
`0` are falsy). -/
def statusTruthy (status : Option ℕ) : Bool :=
  match status with
  | some n => decide (n ≠ 0)
  | none => false

/-- Source `classifyOpenAiFailure({status, message, name})`, branch for
branch. -/
def classifyOpenAiFailure (status : Option ℕ) (message : String)
    (name : Option String) : OpenAiClassification :=
  let isAbort := abortTest name message
  let isNetwork := networkErrorTest message
  let isTransient :=
    (statusTruthy status && transientStatusSet (status.getD 0)) ||
      isAbort || isNetwork
  if status = some 401 || status = some 403 then
    ⟨false, "OpenAI API key is invalid or missing."⟩
  else if status = some 429 then
    ⟨true, "OpenAI rate limit reached."⟩
  else if status = some 400 && inputTooLongTest message then
    ⟨false, "Input is too long for the model."⟩
  else if statusTruthy status && decide (400 ≤ status.getD 0)
      && decide (status.getD 0 < 500) then
    ⟨false, "OpenAI request failed (" ++ toString (status.getD 0) ++ ")."⟩
  else if statusTruthy status && decide (500 ≤ status.getD 0) then
    ⟨true, "OpenAI server error (" ++ toString (status.getD 0) ++ ")."⟩
  else if isAbort then
    ⟨true, "OpenAI request timed out."⟩
  else if isNetwork then
    ⟨true, "Network error while calling OpenAI."⟩
  else
    ⟨isTransient, "OpenAI request failed."⟩

/-- C4 counterexample: on HTTP 401 the classifier is permanent but its
user message is `"OpenAI API key is invalid or missing."`, not the
claimed `"authentication failed"`. -/
theorem c4_classifier_counterexample :
    classifyOpenAiFailure (some 401) "" none
        = ⟨false, "OpenAI API key is invalid or missing."⟩ ∧
      (classifyOpenAiFailure (some 401) "" none).userMessage
        ≠ "authentication failed" := by
  decide

/-- C4 (amended): the Generator failure classifier maps, with first
match winning: 401/403 → permanent with user message
`"OpenAI API key is invalid or missing."` (not the claimed
`"authentication failed"`); 429 → transient; 400 with an error message
matching `/context length|max.*tokens|too long/i` → permanent with
`"Input is too long for the model."`; every other status in 400–499 →
permanent; 500–599 → transient; and timeout/abort or
network-reset/DNS errors (`ECONNRESET`, `ENOTFOUND`, `EAI_AGAIN`,
`ETIMEDOUT`) → transient. -/
theorem c4_classifier_amended (status : Option ℕ) (message : String)
    (name : Option String) :
    ((status = some 401 ∨ status = some 403 →
        classifyOpenAiFailure status message name
          = ⟨false, "OpenAI API key is invalid or missing."⟩) ∧
      (status = some 429 →
        classifyOpenAiFailure status message name
          = ⟨true, "OpenAI rate limit reached."⟩) ∧
      (status = some 400 → inputTooLongTest message = true →
        classifyOpenAiFailure status message name
          = ⟨false, "Input is too long for the model."⟩) ∧
      (∀ n : ℕ, status = some n → 400 ≤ n → n < 500 → n ≠ 429 →
        (classifyOpenAiFailure status message name).isTransient = false) ∧
      (∀ n : ℕ, status = some n → 500 ≤ n → n ≤ 599 →
        (classifyOpenAiFailure status message name).isTransient = true) ∧
      (status = none → abortTest name message = true →
        (classifyOpenAiFailure status message name).isTransient = true) ∧
      (status = none → networkErrorTest message = true →
        (classifyOpenAiFailure status message name).isTransient = true)) := by
  refine ⟨?_, ?_, ?_, ?_, ?_, ?_, ?_⟩
  · rintro (h | h) <;> subst h <;> simp [classifyOpenAiFailure]
  · intro h
    subst h
    simp [classifyOpenAiFailure]
  · intro h htest
    subst h
    simp [classifyOpenAiFailure, htest]
  · intro n hst h400 h500 h429
    subst hst
    have h4true : (statusTruthy (some n) && decide (400 ≤ (some n).getD 0)
        && decide ((some n).getD 0 < 500)) = true := by
      simp [statusTruthy]
      omega
    simp only [classifyOpenAiFailure]
    split_ifs with h1 h2 h3 h4
    · rfl
    · exact absurd (by simpa using h2) h429
    · rfl
    · rfl
    all_goals exact absurd h4true (by assumption)
  · intro n hst h500 h599
    subst hst
    have h5true : (statusTruthy (some n)
        && decide (500 ≤ (some n).getD 0)) = true := by
      simp [statusTruthy]
      omega
    simp only [classifyOpenAiFailure]
    split_ifs with h1 h2 h3 h4 h5
    · exact absurd (by simpa using h1) (by omega)
    · exact absurd (by simpa using h2) (by omega)
    · rcases (by simpa using h3 : n = 400 ∧ inputTooLongTest message = true)
        with ⟨h, _⟩
      omega
    · rcases (by simpa [statusTruthy] using h4 :
          (n ≠ 0 ∧ 400 ≤ n) ∧ n < 500) with ⟨_, h⟩
      omega
    · rfl
    all_goals exact absurd h5true (by assumption)
  · intro h habort
    subst h
    simp [classifyOpenAiFailure, statusTruthy, habort]
  · intro h hnet
    subst h
    cases hab : abortTest name message <;>
      simp [classifyOpenAiFailure, statusTruthy, hnet, hab]

/-- C4 witness: the amended theorem applied at concrete inputs
(status 401, status 503, and a network error without status). -/
theorem c4_classifier_amended_witness :
    classifyOpenAiFailure (some 401) "" none
        = ⟨false, "OpenAI API key is invalid or missing."⟩ ∧
      (classifyOpenAiFailure (some 503) "" none).isTransient = true ∧
      (classifyOpenAiFailure none "ECONNRESET" none).isTransient = true :=
  ⟨(c4_classifier_amended (some 401) "" none).1 (Or.inl rfl),
    (c4_classifier_amended (some 503) "" none).2.2.2.2.1 503 rfl
      (by decide) (by decide),
    (c4_classifier_amended none "ECONNRESET" none).2.2.2.2.2.2 rfl
      (by decide)⟩

/- ===================================================================
   updateProductSeo / updateArticleSeoMetafields (seo.worker.js)
   =================================================================== -/

/-- JS `a || b` for strings (empty string is falsy). -/
def jsOrS (a b : String) : String :=
  if a = "" then b else a

/-- One `MetafieldsSetInput` entry. -/
structure MetafieldInput where
  ownerId : String
  ns : String
  key : String
  fieldType : String
  value : String
deriving DecidableEq, Repr

/-- The `metafields` array staged by `updateProductSeo`. Inputs:
the generated `seoTitle`/`seoDescription` (nullable), the two live
metafield values and the live native `seo{title, description}` values
read from the product (each `p?.x?.value ?? ""`). A field is staged
only when the job is configured for it and its trimmed value is
non-empty; the backfill entries reuse the live counterpart
(metafield value, else native SEO value) and are staged only when the
counterpart metafield is empty while a live value exists. -/
def productSeoMetafields (id : String) (metaTitle metaDescription : Bool)
    (seoTitle seoDescription : Option String)
    (titleTagRaw descTagRaw seoTitleRaw seoDescRaw : String) :
    List MetafieldInput :=
  let titleVal := jsTrim (seoTitle.getD "")
  let descVal := jsTrim (seoDescription.getD "")
  let titleTagVal := jsTrim titleTagRaw
  let descTagVal := jsTrim descTagRaw
  let seoTitleVal := jsTrim seoTitleRaw
  let seoDescVal := jsTrim seoDescRaw
  let currentTitle := jsOrS titleTagVal seoTitleVal
  let currentDesc := jsOrS descTagVal seoDescVal
  let willWriteTitle := metaTitle && titleVal ≠ ""
  let willWriteDesc := metaDescription && descVal ≠ ""
  (if willWriteTitle then
    [⟨id, "global", "title_tag", "single_line_text_field", titleVal⟩]
  else []) ++
  (if willWriteDesc then
    [⟨id, "global", "description_tag", "single_line_text_field", descVal⟩]
  else []) ++
  (if willWriteTitle && !willWriteDesc && metaDescription
      && descTagVal = "" && currentDesc ≠ "" then
    [⟨id, "global", "description_tag", "single_line_text_field",
      currentDesc⟩]
  else []) ++
  (if willWriteDesc && !willWriteTitle && metaTitle
      && titleTagVal = "" && currentTitle ≠ "" then
    [⟨id, "global", "title_tag", "single_line_text_field", currentTitle⟩]
  else [])

/-- The `metafieldsSet` mutation issued by `updateProductSeo`:
`none` when the staged list is empty (`if (!metafields.length) return`). -/
def updateProductSeoMutation (id : String)
    (metaTitle metaDescription : Bool)
    (seoTitle seoDescription : Option String)
    (titleTagRaw descTagRaw seoTitleRaw seoDescRaw : String) :
    Option (List MetafieldInput) :=
  let mf := productSeoMetafields id metaTitle metaDescription
    seoTitle seoDescription titleTagRaw descTagRaw seoTitleRaw seoDescRaw
  if mf = [] then none else some mf

/-- The `metafields` array staged by `updateArticleSeoMetafields` for
one `ownerId` candidate. The live article metafield values
(`live?.titleTag?.value ?? ""`, `live?.descriptionTag?.value ?? ""`)
are trimmed once; the backfill entries are staged only when the live
counterpart is non-empty. -/
def articleSeoMetafields (ownerId : String)
    (metaTitle metaDescription : Bool)
    (seoTitle seoDescription : Option String)
    (liveTitleRaw liveDescRaw : String) : List MetafieldInput :=
  let liveTitle := jsTrim liveTitleRaw
  let liveDesc := jsTrim liveDescRaw
  let titleVal := jsTrim (seoTitle.getD "")
  let descVal := jsTrim (seoDescription.getD "")
  let willWriteTitle := metaTitle && titleVal ≠ ""
  let willWriteDesc := metaDescription && descVal ≠ ""
  (if willWriteTitle then
    [⟨ownerId, "global", "title_tag", "single_line_text_field", titleVal⟩]
  else []) ++
  (if willWriteDesc then
    [⟨ownerId, "global", "description_tag", "single_line_text_field",
      descVal⟩]
  else []) ++
  (if willWriteTitle && !willWriteDesc && metaDescription
      && liveDesc ≠ "" then
    [⟨ownerId, "global", "description_tag", "single_line_text_field",
      liveDesc⟩]
  else []) ++
  (if willWriteDesc && !willWriteTitle && metaTitle
      && liveTitle ≠ "" then
    [⟨ownerId, "global", "title_tag", "single_line_text_field",
      liveTitle⟩]
  else [])

/-- The `metafieldsSet` mutation issued by `updateArticleSeoMetafields`
for one `ownerId` candidate: `none` when the staged list is empty. -/
def updateArticleSeoMutation (ownerId : String)
    (metaTitle metaDescription : Bool)
    (seoTitle seoDescription : Option String)
    (liveTitleRaw liveDescRaw : String) : Option (List MetafieldInput) :=
  let mf := articleSeoMetafields ownerId metaTitle metaDescription
    seoTitle seoDescription liveTitleRaw liveDescRaw
  if mf = [] then none else some mf

theorem mem_if_singleton {α : Type} {c : Prop} [Decidable c] {e m : α}
    (h : m ∈ (if c then [e] else [])) : c ∧ m = e := by
  split at h
  · exact ⟨‹c›, by simpa using h⟩
  · simp at h

theorem productSeoMetafields_values_nonempty (id : String)
    (metaTitle metaDescription : Bool)
    (seoTitle seoDescription : Option String)
    (titleTagRaw descTagRaw seoTitleRaw seoDescRaw : String) :
    ∀ m ∈ productSeoMetafields id metaTitle metaDescription seoTitle
        seoDescription titleTagRaw descTagRaw seoTitleRaw seoDescRaw,
      m.value ≠ "" := by
  intro m hm
  simp only [productSeoMetafields] at hm
  rcases List.mem_append.mp hm with habc | h4
  · rcases List.mem_append.mp habc with hab | h3
    · rcases List.mem_append.mp hab with h1 | h2
      · obtain ⟨hc, rfl⟩ := mem_if_singleton h1
        simp only [Bool.and_eq_true, decide_eq_true_eq] at hc
        simpa using hc.2
      · obtain ⟨hc, rfl⟩ := mem_if_singleton h2
        simp only [Bool.and_eq_true, decide_eq_true_eq] at hc
        simpa using hc.2
    · obtain ⟨hc, rfl⟩ := mem_if_singleton h3
      simp only [Bool.and_eq_true, decide_eq_true_eq] at hc
      simpa using hc.2
  · obtain ⟨hc, rfl⟩ := mem_if_singleton h4
    simp only [Bool.and_eq_true, decide_eq_true_eq] at hc
    simpa using hc.2

theorem articleSeoMetafields_values_nonempty (ownerId : String)
    (metaTitle metaDescription : Bool)
    (seoTitle seoDescription : Option String)
    (liveTitleRaw liveDescRaw : String) :
    ∀ m ∈ articleSeoMetafields ownerId metaTitle metaDescription
        seoTitle seoDescription liveTitleRaw liveDescRaw,
      m.value ≠ "" := by
  intro m hm
  simp only [articleSeoMetafields] at hm
  rcases List.mem_append.mp hm with habc | h4
  · rcases List.mem_append.mp habc with hab | h3
    · rcases List.mem_append.mp hab with h1 | h2
      · obtain ⟨hc, rfl⟩ := mem_if_singleton h1
        simp only [Bool.and_eq_true, decide_eq_true_eq] at hc
        simpa using hc.2
      · obtain ⟨hc, rfl⟩ := mem_if_singleton h2
        simp only [Bool.and_eq_true, decide_eq_true_eq] at hc
        simpa using hc.2
    · obtain ⟨hc, rfl⟩ := mem_if_singleton h3
      simp only [Bool.and_eq_true, decide_eq_true_eq] at hc
      simpa using hc.2
  · obtain ⟨hc, rfl⟩ := mem_if_singleton h4
    simp only [Bool.and_eq_true, decide_eq_true_eq] at hc
    simpa using hc.2

/-- C6 (confirmed): in both the product and article SEO writers the
`metafieldsSet` mutation never contains a metafield entry whose value
is the empty string — fields are staged only when configured and
non-empty after trim, backfills only from a non-empty live value —
and when no field is staged no write mutation is issued at all. -/
theorem c6_never_write_empty (id ownerId : String)
    (metaTitle metaDescription : Bool)
    (seoTitle seoDescription : Option String)
    (titleTagRaw descTagRaw seoTitleRaw seoDescRaw
      liveTitleRaw liveDescRaw : String) :
    ((∀ l, updateProductSeoMutation id metaTitle metaDescription seoTitle
        seoDescription titleTagRaw descTagRaw seoTitleRaw seoDescRaw
          = some l → ∀ m ∈ l, m.value ≠ "") ∧
      (updateProductSeoMutation id metaTitle metaDescription seoTitle
          seoDescription titleTagRaw descTagRaw seoTitleRaw seoDescRaw
          = none ↔
        productSeoMetafields id metaTitle metaDescription seoTitle
          seoDescription titleTagRaw descTagRaw seoTitleRaw seoDescRaw
          = []) ∧
      (∀ l, updateArticleSeoMutation ownerId metaTitle metaDescription
          seoTitle seoDescription liveTitleRaw liveDescRaw
          = some l → ∀ m ∈ l, m.value ≠ "") ∧
      (updateArticleSeoMutation ownerId metaTitle metaDescription
          seoTitle seoDescription liveTitleRaw liveDescRaw
          = none ↔
        articleSeoMetafields ownerId metaTitle metaDescription
          seoTitle seoDescription liveTitleRaw liveDescRaw = [])) := by
  refine ⟨?_, ?_, ?_, ?_⟩
  · intro l hl m hm
    simp only [updateProductSeoMutation] at hl
    split_ifs at hl with h
    obtain rfl := Option.some.inj hl
    exact productSeoMetafields_values_nonempty id metaTitle
      metaDescription seoTitle seoDescription titleTagRaw descTagRaw
      seoTitleRaw seoDescRaw m hm
  · simp only [updateProductSeoMutation]
    split_ifs with h <;> simp [h]
  · intro l hl m hm
    simp only [updateArticleSeoMutation] at hl
    split_ifs at hl with h
    obtain rfl := Option.some.inj hl
    exact articleSeoMetafields_values_nonempty ownerId metaTitle
      metaDescription seoTitle seoDescription liveTitleRaw liveDescRaw m hm
  · simp only [updateArticleSeoMutation]
    split_ifs with h <;> simp [h]

/-- C6 witness: the theorem applied at a concrete configuration —
with an all-empty draft no mutation is issued, and with a title-only
draft the single staged entry is non-empty. -/
theorem c6_never_write_empty_witness :
    updateProductSeoMutation "gid://shopify/Product/1" true true
        (some "  ") (some "") "" "" "" "" = none ∧
      (∀ l, updateProductSeoMutation "gid://shopify/Product/1" true false
          (some "T") none "" "" "" "" = some l →
        ∀ m ∈ l, m.value ≠ "") :=
  ⟨(c6_never_write_empty "gid://shopify/Product/1" "a" true true
      (some "  ") (some "") "" "" "" "" "" "").2.1.mpr (by decide),
    (c6_never_write_empty "gid://shopify/Product/1" "a" true false
      (some "T") none "" "" "" "" "" "").1⟩

/- ===================================================================
   isLanguageMismatch / generateSeoForProduct (seo.worker.js)
   =================================================================== -/

/-- The Turkish-specific characters of `hasTurkishChars`
(`/[çğıöşüÇĞİÖŞÜ]/`). -/
def turkishSpecificChar (c : Char) : Bool :=
  c = 'ç' || c = 'ğ' || c = 'ı' || c = 'ö' || c = 'ş' || c = 'ü' ||
    c = 'Ç' || c = 'Ğ' || c = 'İ' || c = 'Ö' || c = 'Ş' || c = 'Ü'

/-- Source `hasTurkishChars(s)`. -/
def hasTurkishChars (s : String) : Bool :=
  s.data.any turkishSpecificChar

/-- The common-English token list of `englishTokenScore`. -/
def englishTokens : List String :=
  ["the", "and", "for", "with", "discover", "experience", "perfect",
    "unmatched", "slopes", "snowboarder"]

/-- The common-Turkish token list of `turkishTokenScore`. -/
def turkishTokens : List String :=
  ["ve", "ile", "için", "mükemmel", "performans", "dayanıklı", "kış",
    "spor", "şık", "keşfedin"]

/-- Token `score`: the number of listed tokens contained in the lowercased
text. -/
def tokenScore (tokens : List String) (t : List Char) : ℕ :=
  tokens.foldl (fun score k => if hasSub k.data t then score + 1 else score) 0

/-- Is `c` in the ASCII range `a`–`z`? (the regex class `[a-z]`). -/
def isLowerAlpha (c : Char) : Bool :=
  'a' ≤ c && c ≤ 'z'

/-- Source `sanitizeLanguage(input)`: trim, lowercase, take a leading
`[a-z]{2}` match, defaulting to `"tr"`. -/
def sanitizeLanguage (input : String) : String :=
  match (jsTrim input).data.map toLowerJs with
  | a :: b :: _ => if isLowerAlpha a && isLowerAlpha b then ⟨[a, b]⟩ else "tr"
  | _ => "tr"

/-- Model of `texts.filter(Boolean).join(" ")`. -/
def combineTexts (texts : List String) : String :=
  String.intercalate " " (texts.filter (fun s => s ≠ ""))

/-- Source `isLanguageMismatch(lang, ...texts)`: for `tr`, flag output with no
Turkish-specific characters, at least three common English tokens and
zero common Turkish tokens; for `en`, flag any Turkish-specific
character; otherwise never flag. -/
def isLanguageMismatch (lang : String) (texts : List String) : Bool :=
  let l := sanitizeLanguage lang
  let combined := combineTexts texts
  if combined = "" then false
  else if l = "tr" then
    (!hasTurkishChars combined) &&
      decide (3 ≤ tokenScore englishTokens (lowerChars combined)) &&
      decide (tokenScore turkishTokens (lowerChars combined) = 0)
  else if l = "en" then hasTurkishChars combined
  else false

/-- The parsed JSON object returned by a Generator call for
product/blog SEO (`out?.seoTitle`, `out?.seoDescription`). -/
structure SeoOut where
  seoTitle : Option String
  seoDescription : Option String
deriving DecidableEq, Repr

/-- Source `generateSeoForProduct` with the Generator calls abstracted:
`firstOut` is the parsed first response and `rewriteOut` the parsed
response of `rewriteJsonToLanguage` on a given input JSON. Returns the
truncated `{seoTitle, seoDescription}` result together with the number
of rewrite calls made. The mismatch check runs once, on the first
output; a rewrite result is accepted as-is (fields falling back to the
first output when empty). -/
def generateSeoForProduct (language : String)
    (titleMaxChars descriptionMaxChars : ℕ) (firstOut : SeoOut)
    (rewriteOut : String × String → SeoOut) : (String × String) × ℕ :=
  let lang := sanitizeLanguage language
  let t0 := jsOr firstOut.seoTitle ""
  let d0 := jsOr firstOut.seoDescription ""
  if isLanguageMismatch lang [t0, d0] then
    let rewritten := rewriteOut (t0, d0)
    let t1 := jsOr rewritten.seoTitle t0
    let d1 := jsOr rewritten.seoDescription d0
    ((t1.take titleMaxChars, d1.take descriptionMaxChars), 1)
  else
    ((t0.take titleMaxChars, d0.take descriptionMaxChars), 0)

/-- C7 (confirmed): the rewrite pass is invoked exactly once when the
mismatch heuristic flags the first Generator output and never
otherwise; the rewrite's output is accepted without re-running the
mismatch check — the result and call count do not depend on whether
the rewritten text itself would be flagged — so a second mismatch
cannot trigger another rewrite. -/
theorem c7_rewrite_exactly_once (language : String) (tMax dMax : ℕ)
    (firstOut : SeoOut) (rewriteOut : String × String → SeoOut) :
    ((generateSeoForProduct language tMax dMax firstOut rewriteOut).2
        = if isLanguageMismatch (sanitizeLanguage language)
              [jsOr firstOut.seoTitle "", jsOr firstOut.seoDescription ""]
          then 1 else 0) ∧
      (generateSeoForProduct language tMax dMax firstOut rewriteOut).2 ≤ 1 ∧
      (isLanguageMismatch (sanitizeLanguage language)
          [jsOr firstOut.seoTitle "", jsOr firstOut.seoDescription ""]
          = true →
        (generateSeoForProduct language tMax dMax firstOut rewriteOut).1
          = ((jsOr (rewriteOut (jsOr firstOut.seoTitle "",
                jsOr firstOut.seoDescription "")).seoTitle
                (jsOr firstOut.seoTitle "")).take tMax,
             (jsOr (rewriteOut (jsOr firstOut.seoTitle "",
                jsOr firstOut.seoDescription "")).seoDescription
                (jsOr firstOut.seoDescription "")).take dMax)) ∧
      (isLanguageMismatch (sanitizeLanguage language)
          [jsOr firstOut.seoTitle "", jsOr firstOut.seoDescription ""]
          = false →
        (generateSeoForProduct language tMax dMax firstOut rewriteOut).1
          = ((jsOr firstOut.seoTitle "").take tMax,
             (jsOr firstOut.seoDescription "").take dMax)) := by
  by_cases h : isLanguageMismatch (sanitizeLanguage language)
      [jsOr firstOut.seoTitle "", jsOr firstOut.seoDescription ""] = true
  · refine ⟨?_, ?_, ?_, ?_⟩ <;>
      simp [generateSeoForProduct, h]
  · have hf : isLanguageMismatch (sanitizeLanguage language)
        [jsOr firstOut.seoTitle "", jsOr firstOut.seoDescription ""]
          = false := by
      revert h
      cases isLanguageMismatch (sanitizeLanguage language)
        [jsOr firstOut.seoTitle "", jsOr firstOut.seoDescription ""] <;>
          simp
    refine ⟨?_, ?_, ?_, ?_⟩ <;>
      simp [generateSeoForProduct, hf]

/-- C7 witness: a concrete Turkish job whose first output is flagged
as English (three common English tokens, no Turkish letters) performs
exactly one rewrite, even though the rewrite output shown here would
be flagged again; an unflagged English output performs none. -/
theorem c7_rewrite_exactly_once_witness :
    (generateSeoForProduct "tr" 70 160
          ⟨some "the and for", none⟩
          (fun _ => ⟨some "discover the experience and for with", none⟩)).2
        = 1 ∧
      (generateSeoForProduct "en" 70 160 ⟨some "hello world", none⟩
          (fun _ => ⟨none, none⟩)).2 = 0 := by
  constructor
  · rw [(c7_rewrite_exactly_once "tr" 70 160
        ⟨some "the and for", none⟩
        (fun _ => ⟨some "discover the experience and for with", none⟩)).1]
    decide
  · rw [(c7_rewrite_exactly_once "en" 70 160 ⟨some "hello world", none⟩
        (fun _ => ⟨none, none⟩)).1]
    decide
